import Mathlib

/-
Verification development for the tei-reranker-proxy repository
(src/main.rs): a protocol-translation proxy that validates a rerank
request, forwards it to a TEI backend, parses the scored reply, sorts
it by descending relevance and maps every failure to a structured
error.  The Rust code is shallowly embedded below: the pure parts
become Lean functions; the single network call is a parameter
`backend : TEIRequest → BackendOutcome` describing what the outside
world answers; `serde_json` deserialization of the backend body is a
parameter `parseTEI : String → Option (List TEIRankResult)` (`none`
models a deserialization error).  Rust `f64` relevance scores are
modelled by `F64`: either NaN or a comparable finite value represented
by a rational (non-NaN doubles form a finite linear order, so this
preserves every order-theoretic fact the code depends on).
-/

namespace RerankProxy

/-- Model of an f64 relevance score: NaN or a comparable value. -/
inductive F64 where
  | nan : F64
  | val : ℚ → F64
deriving DecidableEq

/-- Model of Rust f64 comparison (`a.partial_cmp(&b)`): `none` exactly
when either operand is NaN, otherwise the numeric ordering. -/
def F64.pcmp : F64 → F64 → Option Ordering
  | .val a, .val b => some (if a < b then .lt else if b < a then .gt else .eq)
  | _, _ => none

/-- Strict numeric less-than on scores; false whenever either side is NaN. -/
def fLt (a b : F64) : Bool := F64.pcmp a b = some Ordering.lt

/-- Inbound request body (struct `OpenWebUIRequest` in main.rs). -/
structure OpenWebUIRequest where
  query : String
  documents : List String
  model : Option String
  top_n : Option Nat
deriving DecidableEq

/-- Request forwarded to the TEI backend (struct `TEIRequest`). -/
structure TEIRequest where
  query : String
  texts : List String
deriving DecidableEq

/-- One entry of the backend reply (struct `TEIRankResult`). -/
structure TEIRankResult where
  index : Nat
  score : F64
deriving DecidableEq

/-- One entry of the outbound response (struct `RankResult`). -/
structure RankResult where
  index : Nat
  relevance_score : F64
deriving DecidableEq

/-- Outbound success body (struct `OpenWebUIResponse`). -/
structure OpenWebUIResponse where
  results : List RankResult
deriving DecidableEq

/-- Structured error body (struct `ErrorResponse`). -/
structure ErrorResponse where
  error : String
  message : String
deriving DecidableEq

/-- Internal error taxonomy (enum `ApiError`). -/
inductive ApiError where
  | BadRequest : String → ApiError
  | TEIError : String → ApiError
  | InternalError : String → ApiError
deriving DecidableEq

/-- The environment variables the program reads (`std::env::var`). -/
structure Env where
  TEI_ENDPOINT : Option String
  TEI_PROXY_PORT : Option String
  MAX_CLIENT_BATCH_SIZE : Option String
deriving DecidableEq

/-- Unicode White_Space code points, as recognised by Rust
`char::is_whitespace`. -/
def rustIsWhitespace (c : Char) : Bool :=
  ([0x09, 0x0A, 0x0B, 0x0C, 0x0D, 0x20, 0x85, 0xA0, 0x1680,
    0x2000, 0x2001, 0x2002, 0x2003, 0x2004, 0x2005, 0x2006, 0x2007,
    0x2008, 0x2009, 0x200A, 0x2028, 0x2029, 0x202F, 0x205F,
    0x3000] : List Nat).contains c.toNat

/-- Model of Rust `str::trim`: strip leading and trailing whitespace. -/
def rustTrim (s : String) : String :=
  ⟨((s.data.dropWhile rustIsWhitespace).reverse.dropWhile
      rustIsWhitespace).reverse⟩

/-- Numeric value of a list of ASCII digits. -/
def digitsVal (ds : List Char) : Nat :=
  ds.foldl (fun acc c => acc * 10 + (c.toNat - 48)) 0

/-- Model of Rust `str::parse` for an unsigned integer type with the
given maximum: an optional leading plus sign, then one or more ASCII
digits, rejecting overflow. -/
def rustParseNat (bound : Nat) (s : String) : Option Nat :=
  let ds := match s.data with
    | '+' :: rest => rest
    | cs => cs
  if ds ≠ [] ∧ ds.all Char.isDigit then
    if digitsVal ds ≤ bound then some (digitsVal ds) else none
  else none

/-- Largest value of Rust usize on a 64-bit target. -/
def USIZE_MAX : Nat := 2 ^ 64 - 1

/-- Largest value of Rust u16. -/
def U16_MAX : Nat := 2 ^ 16 - 1

/-- The maximum batch size, read from the environment inside
`handle_rerank` (main.rs lines 126-129): `MAX_CLIENT_BATCH_SIZE`
parsed as usize, defaulting to 1000. -/
def maxBatchSize (env : Env) : Nat :=
  (env.MAX_CLIENT_BATCH_SIZE.bind (rustParseNat USIZE_MAX)).getD 1000

/-- Configuration computed once in `main` (main.rs lines 54-60) from
the startup environment: the TEI endpoint and the listening port. -/
structure Config where
  tei_endpoint : String
  port : Nat
deriving DecidableEq

/-- Startup configuration: `TEI_ENDPOINT` defaulting to
`http://localhost:4000`, and `TEI_PROXY_PORT` parsed as u16 with
default 8000 (also 8000 when unparsable). -/
def startupConfig (env : Env) : Config :=
  { tei_endpoint := env.TEI_ENDPOINT.getD "http://localhost:4000"
    port := (rustParseNat U16_MAX (env.TEI_PROXY_PORT.getD "8000")).getD 8000 }

/-- What the outside world does with the single backend HTTP call:
client construction fails, the POST fails to send, the backend answers
a non-2xx status (whose body may itself fail to read), reading a 2xx
body fails, or a body string is obtained. -/
inductive BackendOutcome where
  | clientError : BackendOutcome
  | sendError : String → BackendOutcome
  | badStatus : String → Option String → BackendOutcome
  | readError : BackendOutcome
  | ok : String → BackendOutcome

/-- The sort comparator of main.rs line 249:
`|a, b| b.1.partial_cmp(&a.1).unwrap_or(Equal)` on `(usize, f64)`
pairs, i.e. descending by score with incomparable (NaN) pairs treated
as equal. -/
def rerankCmp (a b : Nat × F64) : Ordering :=
  (F64.pcmp b.2 a.2).getD Ordering.eq

/-- Stable insertion of an element into a list already arranged by the
comparator: the element goes in front of the first entry it is not
strictly greater than. -/
def insertSorted (cmp : α → α → Ordering) (x : α) : List α → List α
  | [] => [x]
  | y :: ys =>
    if cmp x y = Ordering.gt then y :: insertSorted cmp x ys
    else x :: y :: ys

/-- Model of Rust `slice::sort_by`, a stable comparator sort, as
stable insertion sort; the two agree on every comparator that is
consistent with a total preorder. -/
def sortByCmp (cmp : α → α → Ordering) : List α → List α
  | [] => []
  | x :: xs => insertSorted cmp x (sortByCmp cmp xs)

/-- Request translation (main.rs lines 139-142): the query passes
through and the documents become `texts` 1:1 in order. -/
def tei_request_of (req : OpenWebUIRequest) : TEIRequest :=
  { query := req.query, texts := req.documents }

/-- Input validation (main.rs lines 112-136): empty trimmed query,
empty documents, or more documents than the configured maximum. -/
def validate (env : Env) (req : OpenWebUIRequest) : Option ApiError :=
  if (rustTrim req.query).isEmpty then
    some (.BadRequest "Query cannot be empty")
  else if req.documents.isEmpty then
    some (.BadRequest "Documents list cannot be empty")
  else if req.documents.length > maxBatchSize env then
    some (.BadRequest ("Too many documents, max: " ++
      toString (maxBatchSize env)))
  else none

/-- Ranking and response translation (main.rs lines 242-256): map each
backend entry to an (index, score) pair, sort by the NaN-tolerant
descending comparator, and rebuild `RankResult` records. -/
def rankResults (rs : List TEIRankResult) : List RankResult :=
  (sortByCmp rerankCmp (rs.map fun r => (r.index, r.score))).map
    fun p => { index := p.1, relevance_score := p.2 }

/-- The rerank handler (main.rs lines 94-271).  `Except.ok` is the 200
JSON reply; `Except.error` is a rejection later mapped by
`handle_rejection`.  `parseTEI` stands for the serde_json
deserialization of the backend body, `backend` for the world's answer
to the single HTTP call, and `tei_endpoint` is the startup endpoint
value that `main` moved into the handler closure. -/
def handle_rerank (parseTEI : String → Option (List TEIRankResult))
    (backend : TEIRequest → BackendOutcome) (env : Env)
    (req : OpenWebUIRequest) (tei_endpoint : String) :
    Except ApiError OpenWebUIResponse :=
  match validate env req with
  | some e => .error e
  | none =>
    match backend (tei_request_of req) with
    | .clientError => .error (.InternalError "HTTP client creation failed")
    | .sendError e =>
        .error (.TEIError ("Failed to connect to TEI service: " ++ e))
    | .badStatus status body =>
        .error (.TEIError ("TEI service error " ++ status ++ ": " ++
          body.getD "Unknown error"))
    | .readError =>
        .error (.TEIError "Failed to read response from TEI service")
    | .ok response_text =>
      match parseTEI response_text with
      | none =>
          .error (.TEIError
            ("Invalid response format from TEI service. Expected array of scores, got: "
              ++ response_text))
      | some tei_results =>
        if tei_results.length ≠ req.documents.length then
          .error (.TEIError "TEI response length doesn't match input documents")
        else
          .ok { results := rankResults tei_results }

/-- The warp rejections `handle_rejection` distinguishes (main.rs
lines 284-307): an unmatched route, a custom `ApiError`, a body that
failed to deserialize, and anything else. -/
inductive Rejection where
  | notFound : Rejection
  | api : ApiError → Rejection
  | bodyDeserialize : Rejection
  | other : Rejection

/-- The error mapper (main.rs lines 284-318): status code plus
structured body with a machine code and a message. -/
def handle_rejection (err : Rejection) : Nat × ErrorResponse :=
  let t : Nat × String × String :=
    match err with
    | .notFound => (404, "Not Found", "not_found")
    | .api (.BadRequest msg) => (400, msg, "bad_request")
    | .api (.TEIError msg) => (502, msg, "tei_error")
    | .api (.InternalError msg) => (500, msg, "internal_error")
    | .bodyDeserialize => (400, "Invalid JSON in request body", "invalid_json")
    | .other => (500, "Internal Server Error", "internal_error")
  (t.1, { error := t.2.2, message := t.2.1 })

/-- The non-strict order induced by a comparator: not strictly greater. -/
def leOf (cmp : α → α → Ordering) (a b : α) : Prop := cmp a b ≠ Ordering.gt

theorem perm_insertSorted (cmp : α → α → Ordering) (x : α) :
    ∀ l : List α, List.Perm (insertSorted cmp x l) (x :: l)
  | [] => List.Perm.refl _
  | y :: ys => by
    unfold insertSorted
    split
    · exact ((perm_insertSorted cmp x ys).cons y).trans (List.Perm.swap x y ys)
    · exact List.Perm.refl _

theorem perm_sortByCmp (cmp : α → α → Ordering) :
    ∀ l : List α, List.Perm (sortByCmp cmp l) l
  | [] => List.Perm.refl _
  | x :: xs => by
    unfold sortByCmp
    exact (perm_insertSorted cmp x _).trans ((perm_sortByCmp cmp xs).cons x)

theorem insertSorted_head_cases (cmp : α → α → Ordering) (x : α) :
    ∀ l : List α, (insertSorted cmp x l).head? = some x ∨
      (insertSorted cmp x l).head? = l.head?
  | [] => Or.inl rfl
  | y :: ys => by
    unfold insertSorted
    split
    · exact Or.inr rfl
    · exact Or.inl rfl

theorem chain'_insertSorted (cmp : α → α → Ordering)
    (htot : ∀ a b, cmp a b = Ordering.gt → cmp b a ≠ Ordering.gt) (x : α) :
    ∀ l : List α, List.Chain' (leOf cmp) l →
      List.Chain' (leOf cmp) (insertSorted cmp x l)
  | [], _ => List.chain'_singleton x
  | y :: ys, h => by
    unfold insertSorted
    split
    case isTrue hxy =>
      rcases List.chain'_cons'.mp h with ⟨hhead, htail⟩
      refine List.chain'_cons'.mpr
        ⟨?_, chain'_insertSorted cmp htot x ys htail⟩
      intro b hb
      rcases insertSorted_head_cases cmp x ys with hc | hc
      · rw [hc] at hb
        simp only [Option.mem_def, Option.some.injEq] at hb
        subst hb
        exact htot x y hxy
      · rw [hc] at hb
        exact hhead b hb
    case isFalse hxy =>
      exact List.chain'_cons'.mpr
        ⟨by intro b hb
            simp only [List.head?_cons, Option.mem_def, Option.some.injEq] at hb
            subst hb
            exact hxy, h⟩

theorem chain'_sortByCmp (cmp : α → α → Ordering)
    (htot : ∀ a b, cmp a b = Ordering.gt → cmp b a ≠ Ordering.gt) :
    ∀ l : List α, List.Chain' (leOf cmp) (sortByCmp cmp l)
  | [] => List.chain'_nil
  | x :: xs => chain'_insertSorted cmp htot x _ (chain'_sortByCmp cmp htot xs)

theorem rerankCmp_total (a b : Nat × F64) :
    rerankCmp a b = Ordering.gt → rerankCmp b a ≠ Ordering.gt := by
  obtain ⟨i, sa⟩ := a
  obtain ⟨j, sb⟩ := b
  cases sa <;> cases sb <;>
    simp only [rerankCmp, F64.pcmp, Option.getD] <;> intro h
  · simp at h
  · simp at h
  · simp at h
  case val.val qa qb =>
    split_ifs at h ⊢ <;> simp_all <;> linarith

theorem fLt_eq_false_of_le (a b : Nat × F64) (h : leOf rerankCmp a b) :
    fLt a.2 b.2 = false := by
  obtain ⟨i, sa⟩ := a
  obtain ⟨j, sb⟩ := b
  cases sa <;> cases sb <;>
    simp only [leOf, rerankCmp, F64.pcmp, fLt, Option.getD] at *
  · rfl
  · rfl
  · rfl
  case val.val qa qb =>
    split_ifs at h ⊢ <;> simp_all <;> linarith

theorem chain'_rankResults (rs : List TEIRankResult) :
    List.Chain' (fun x y => fLt x.relevance_score y.relevance_score = false)
      (rankResults rs) := by
  unfold rankResults
  rw [List.chain'_map]
  exact List.Chain'.imp (fun a b hab => fLt_eq_false_of_le a b hab)
    (chain'_sortByCmp rerankCmp rerankCmp_total
      (rs.map fun r => (r.index, r.score)))

theorem rankResults_length (rs : List TEIRankResult) :
    (rankResults rs).length = rs.length := by
  unfold rankResults
  rw [List.length_map, (perm_sortByCmp _ _).length_eq, List.length_map]

theorem rankResults_pairs_perm (rs : List TEIRankResult) :
    List.Perm ((rankResults rs).map fun r => (r.index, r.relevance_score))
      (rs.map fun r => (r.index, r.score)) := by
  unfold rankResults
  rw [List.map_map]
  have hid : ((fun r : RankResult => (r.index, r.relevance_score)) ∘
      fun p : Nat × F64 =>
        ({ index := p.1, relevance_score := p.2 } : RankResult)) = id := by
    funext p
    rfl
  rw [hid, List.map_id]
  exact perm_sortByCmp _ _

theorem validate_eq_none_iff (env : Env) (req : OpenWebUIRequest) :
    validate env req = none ↔
      (rustTrim req.query).isEmpty = false ∧ req.documents.isEmpty = false ∧
        req.documents.length ≤ maxBatchSize env := by
  unfold validate
  split_ifs <;> simp_all <;> omega

theorem handle_rerank_ok (parseTEI : String → Option (List TEIRankResult))
    (backend : TEIRequest → BackendOutcome) (env : Env)
    (req : OpenWebUIRequest) (ep body : String) (rs : List TEIRankResult)
    (hv : validate env req = none)
    (hb : backend (tei_request_of req) = .ok body)
    (hp : parseTEI body = some rs)
    (hlen : rs.length = req.documents.length) :
    handle_rerank parseTEI backend env req ep =
      .ok { results := rankResults rs } := by
  unfold handle_rerank
  simp [hv, hb, hp, hlen]

theorem validate_fails_of (env : Env) (req : OpenWebUIRequest)
    (h : (rustTrim req.query).isEmpty = true ∨ req.documents.isEmpty = true ∨
      maxBatchSize env < req.documents.length) :
    ∃ msg, validate env req = some (ApiError.BadRequest msg) := by
  unfold validate
  split_ifs with h1 h2 h3
  · exact ⟨_, rfl⟩
  · exact ⟨_, rfl⟩
  · exact ⟨_, rfl⟩
  · rcases h with h | h | h <;> simp_all

/-- C6: the sort comparator of the ranker returns `eq` whenever either
score is NaN, and on two comparable scores it orders the larger score
first: `lt` (left sorts earlier) when the left score is larger, `gt`
when the right score is larger, `eq` when they are equal. -/
theorem c6_comparator_nan_eq_desc (a b : Nat × F64) :
    ((a.2 = F64.nan ∨ b.2 = F64.nan) → rerankCmp a b = Ordering.eq) ∧
    (∀ qa qb : ℚ, a.2 = F64.val qa → b.2 = F64.val qb →
      ((qb < qa → rerankCmp a b = Ordering.lt) ∧
       (qa < qb → rerankCmp a b = Ordering.gt) ∧
       (qa = qb → rerankCmp a b = Ordering.eq))) := by
  obtain ⟨i, sa⟩ := a
  obtain ⟨j, sb⟩ := b
  constructor
  · intro h
    cases sa <;> cases sb <;> simp_all [rerankCmp, F64.pcmp]
  · rintro qa qb ha hb
    simp only at ha hb
    subst ha
    subst hb
    refine ⟨fun h => ?_, fun h => ?_, fun h => ?_⟩
    · simp only [rerankCmp, F64.pcmp, Option.getD]
      rw [if_pos h]
    · simp only [rerankCmp, F64.pcmp, Option.getD]
      rw [if_neg (lt_asymm h), if_pos h]
    · subst h
      simp only [rerankCmp, F64.pcmp, Option.getD]
      rw [if_neg (lt_irrefl qa), if_neg (lt_irrefl qa)]

/-- C6 witness: a pair with a NaN score on the right compares as equal. -/
theorem c6_comparator_nan_eq_desc_witness :
    rerankCmp (0, F64.val 1) (1, F64.nan) = Ordering.eq :=
  (c6_comparator_nan_eq_desc (0, F64.val 1) (1, F64.nan)).1 (Or.inr rfl)

/-- C8: the error mapper sends BadRequest to 400 bad_request, a
malformed inbound body to 400 invalid_json, an unmatched route to 404
not_found, TEIError to 502 tei_error, and InternalError or any
unclassified rejection to 500 internal_error, always with a structured
body carrying a machine code and a message. -/
theorem c8_error_mapper_table :
    (∀ msg, handle_rejection (.api (.BadRequest msg)) =
      (400, { error := "bad_request", message := msg })) ∧
    handle_rejection .bodyDeserialize =
      (400, { error := "invalid_json",
              message := "Invalid JSON in request body" }) ∧
    handle_rejection .notFound =
      (404, { error := "not_found", message := "Not Found" }) ∧
    (∀ msg, handle_rejection (.api (.TEIError msg)) =
      (502, { error := "tei_error", message := msg })) ∧
    (∀ msg, handle_rejection (.api (.InternalError msg)) =
      (500, { error := "internal_error", message := msg })) ∧
    handle_rejection .other =
      (500, { error := "internal_error",
              message := "Internal Server Error" }) :=
  ⟨fun _ => rfl, rfl, rfl, fun _ => rfl, fun _ => rfl, rfl⟩

/-- C8 witness: the mapper evaluated on a concrete BadRequest. -/
theorem c8_error_mapper_table_witness :
    handle_rejection (.api (.BadRequest "x")) =
      (400, { error := "bad_request", message := "x" }) :=
  c8_error_mapper_table.1 "x"

/-- C9: when validation fails, the backend is never contacted: the
handler result does not depend on the backend (nor on the parse
function or endpoint), and it is the BadRequest rejection. -/
theorem c9_no_backend_call_on_invalid
    (parseTEI parseTEI' : String → Option (List TEIRankResult))
    (backend backend' : TEIRequest → BackendOutcome) (env : Env)
    (req : OpenWebUIRequest) (ep ep' : String)
    (h : (rustTrim req.query).isEmpty = true ∨ req.documents.isEmpty = true ∨
      maxBatchSize env < req.documents.length) :
    handle_rerank parseTEI backend env req ep =
      handle_rerank parseTEI' backend' env req ep' ∧
    ∃ msg, handle_rerank parseTEI backend env req ep =
      .error (.BadRequest msg) := by
  obtain ⟨msg, hm⟩ := validate_fails_of env req h
  unfold handle_rerank
  rw [hm]
  exact ⟨rfl, msg, rfl⟩

/-- C9 witness: a whitespace-only query is rejected identically under
two different backends and parse functions. -/
theorem c9_no_backend_call_on_invalid_witness :
    handle_rerank (fun _ => none) (fun _ => .ok "a") ⟨none, none, none⟩
        ⟨" ", ["d"], none, none⟩ "e1" =
      handle_rerank (fun _ => some []) (fun _ => .readError)
        ⟨none, none, none⟩ ⟨" ", ["d"], none, none⟩ "e2" ∧
    ∃ msg, handle_rerank (fun _ => none) (fun _ => .ok "a")
        ⟨none, none, none⟩ ⟨" ", ["d"], none, none⟩ "e1" =
      .error (.BadRequest msg) :=
  c9_no_backend_call_on_invalid (fun _ => none) (fun _ => some [])
    (fun _ => .ok "a") (fun _ => .readError) ⟨none, none, none⟩
    ⟨" ", ["d"], none, none⟩ "e1" "e2" (Or.inl (by decide))

/-- C2 as stated is false: the maximum batch size is read from the
environment inside the handler, so changing MAX_CLIENT_BATCH_SIZE
between startup and a request changes the handler's behaviour on the
same request. -/
theorem c2_counterexample :
    handle_rerank (fun _ => none) (fun _ => .ok "resp") ⟨none, none, none⟩
        ⟨"q", ["a", "b"], none, none⟩ "ep" ≠
      handle_rerank (fun _ => none) (fun _ => .ok "resp")
        ⟨none, none, some "1"⟩ ⟨"q", ["a", "b"], none, none⟩ "ep" := by
  intro h
  have h1 : handle_rerank (fun _ => none) (fun _ => .ok "resp")
      ⟨none, none, none⟩ ⟨"q", ["a", "b"], none, none⟩ "ep" =
      .error (.TEIError
        ("Invalid response format from TEI service. Expected array of scores, got: resp")) :=
    rfl
  have h2 : handle_rerank (fun _ => none) (fun _ => .ok "resp")
      ⟨none, none, some "1"⟩ ⟨"q", ["a", "b"], none, none⟩ "ep" =
      .error (.BadRequest "Too many documents, max: 1") := rfl
  rw [h1, h2] at h
  simp at h

/-- C2 amended: the endpoint and port are fixed at startup (the
handler receives the endpoint as a value and never reads it from the
environment), and the handler depends on the ambient environment only
through MAX_CLIENT_BATCH_SIZE: two environments agreeing on that
variable give identical behaviour. -/
theorem c2_amended_env_dependence
    (parseTEI : String → Option (List TEIRankResult))
    (backend : TEIRequest → BackendOutcome) (env env' : Env)
    (req : OpenWebUIRequest) (ep : String)
    (hmax : env.MAX_CLIENT_BATCH_SIZE = env'.MAX_CLIENT_BATCH_SIZE) :
    handle_rerank parseTEI backend env req ep =
      handle_rerank parseTEI backend env' req ep := by
  unfold handle_rerank validate maxBatchSize
  rw [hmax]

/-- C2 amended witness: environments differing in endpoint and port
but agreeing on the batch variable behave identically. -/
theorem c2_amended_env_dependence_witness :
    handle_rerank (fun _ => none) (fun _ => .readError)
        ⟨some "http://a", some "1", none⟩ ⟨"q", ["d"], none, none⟩ "e" =
      handle_rerank (fun _ => none) (fun _ => .readError)
        ⟨some "http://b", none, none⟩ ⟨"q", ["d"], none, none⟩ "e" :=
  c2_amended_env_dependence (fun _ => none) (fun _ => .readError)
    ⟨some "http://a", some "1", none⟩ ⟨some "http://b", none, none⟩
    ⟨"q", ["d"], none, none⟩ "e" rfl

/-- C3: the handler rejects with BadRequest exactly when the trimmed
query is empty, the documents list is empty, or the documents exceed
the configured maximum (1000 when the variable is absent); in the
too-many case the message states the configured limit; and BadRequest
is mapped to 400 bad_request. -/
theorem c3_validation_iff (parseTEI : String → Option (List TEIRankResult))
    (backend : TEIRequest → BackendOutcome) (env : Env)
    (req : OpenWebUIRequest) (ep : String) :
    ((∃ msg, handle_rerank parseTEI backend env req ep =
        .error (.BadRequest msg)) ↔
      ((rustTrim req.query).isEmpty = true ∨ req.documents.isEmpty = true ∨
        maxBatchSize env < req.documents.length)) ∧
    (env.MAX_CLIENT_BATCH_SIZE = none → maxBatchSize env = 1000) ∧
    ((rustTrim req.query).isEmpty = false → req.documents.isEmpty = false →
      maxBatchSize env < req.documents.length →
      handle_rerank parseTEI backend env req ep =
        .error (.BadRequest ("Too many documents, max: " ++
          toString (maxBatchSize env)))) ∧
    (∀ msg, handle_rejection (.api (.BadRequest msg)) =
      (400, { error := "bad_request", message := msg })) := by
  refine ⟨⟨?_, ?_⟩, fun h => by simp [maxBatchSize, h], fun h1 h2 h3 => ?_,
    fun _ => rfl⟩
  · rintro ⟨msg, hmsg⟩
    by_contra hno
    push_neg at hno
    obtain ⟨h1, h2, h3⟩ := hno
    have hq : (rustTrim req.query).isEmpty = false := by
      cases hqq : (rustTrim req.query).isEmpty <;> simp_all
    have hd : req.documents.isEmpty = false := by
      cases hdd : req.documents.isEmpty <;> simp_all
    have hv : validate env req = none :=
      (validate_eq_none_iff env req).mpr ⟨hq, hd, by omega⟩
    unfold handle_rerank at hmsg
    rw [hv] at hmsg
    cases hb : backend (tei_request_of req) <;> rw [hb] at hmsg <;>
        simp at hmsg
    case ok s =>
      cases hp : parseTEI s <;> rw [hp] at hmsg <;> simp at hmsg
      case some rs =>
        split at hmsg <;> simp_all
  · intro h
    obtain ⟨msg, hm⟩ := validate_fails_of env req h
    exact ⟨msg, by unfold handle_rerank; rw [hm]⟩
  · unfold handle_rerank validate
    simp [h1, h2, h3]

/-- C3 witness: the iff and the 1000 default evaluated concretely. -/
theorem c3_validation_iff_witness :
    maxBatchSize ⟨none, none, none⟩ = 1000 ∧
    ((∃ msg, handle_rerank (fun _ => none) (fun _ => .readError)
        ⟨none, none, none⟩ ⟨"q", [], none, none⟩ "e" =
        .error (.BadRequest msg)) ↔
      ((rustTrim "q").isEmpty = true ∨ ([] : List String).isEmpty = true ∨
        maxBatchSize ⟨none, none, none⟩ < ([] : List String).length)) :=
  ⟨(c3_validation_iff (fun _ => none) (fun _ => .readError)
      ⟨none, none, none⟩ ⟨"q", [], none, none⟩ "e").2.1 rfl,
    (c3_validation_iff (fun _ => none) (fun _ => .readError)
      ⟨none, none, none⟩ ⟨"q", [], none, none⟩ "e").1⟩

/-- C7: once validation has passed and the backend body is obtained,
an unparsable body yields the TEIError embedding the raw body in its
message, a parsed array of the wrong length yields the length-mismatch
TEIError, an error result is never a success, and TEIError maps to
502 tei_error. -/
theorem c7_parse_failures (parseTEI : String → Option (List TEIRankResult))
    (backend : TEIRequest → BackendOutcome) (env : Env)
    (req : OpenWebUIRequest) (ep body : String) (rs : List TEIRankResult)
    (hv : validate env req = none)
    (hb : backend (tei_request_of req) = .ok body) :
    (parseTEI body = none →
      handle_rerank parseTEI backend env req ep =
        .error (.TEIError
          ("Invalid response format from TEI service. Expected array of scores, got: "
            ++ body))) ∧
    (parseTEI body = some rs → rs.length ≠ req.documents.length →
      handle_rerank parseTEI backend env req ep =
        .error (.TEIError "TEI response length doesn't match input documents")) ∧
    (∀ e resp, handle_rerank parseTEI backend env req ep = .error e →
      handle_rerank parseTEI backend env req ep ≠ .ok resp) ∧
    (∀ msg, handle_rejection (.api (.TEIError msg)) =
      (502, { error := "tei_error", message := msg })) := by
  refine ⟨fun hp => ?_, fun hp hne => ?_,
    fun e resp he hok => ?_, fun _ => rfl⟩
  · unfold handle_rerank
    simp [hv, hb, hp]
  · unfold handle_rerank
    simp [hv, hb, hp, hne]
  · rw [he] at hok
    exact Except.noConfusion hok

/-- C7 witness: an unparsable backend body on a valid request produces
the TEIError carrying the raw body. -/
theorem c7_parse_failures_witness :
    handle_rerank (fun _ => none) (fun _ => .ok "oops") ⟨none, none, none⟩
        ⟨"q", ["d"], none, none⟩ "e" =
      .error (.TEIError
        ("Invalid response format from TEI service. Expected array of scores, got: "
          ++ "oops")) :=
  (c7_parse_failures (fun _ => none) (fun _ => .ok "oops")
    ⟨none, none, none⟩ ⟨"q", ["d"], none, none⟩ "e" "oops" []
    (by decide) rfl).1 rfl

/-- C1: a request that passes validation and whose backend body parses
to exactly as many entries as there are documents yields a success
(the 200 reply) whose results list has that same length and whose
relevance scores never increase from one entry to the next (an
adjacent later score is never numerically greater). -/
theorem c1_success_shape (parseTEI : String → Option (List TEIRankResult))
    (backend : TEIRequest → BackendOutcome) (env : Env)
    (req : OpenWebUIRequest) (ep body : String) (rs : List TEIRankResult)
    (hq : (rustTrim req.query).isEmpty = false)
    (hd : req.documents.isEmpty = false)
    (hmax : req.documents.length ≤ maxBatchSize env)
    (hb : backend (tei_request_of req) = .ok body)
    (hp : parseTEI body = some rs)
    (hlen : rs.length = req.documents.length) :
    ∃ resp, handle_rerank parseTEI backend env req ep = .ok resp ∧
      resp.results.length = req.documents.length ∧
      List.Chain' (fun x y => fLt x.relevance_score y.relevance_score = false)
        resp.results := by
  have hv : validate env req = none :=
    (validate_eq_none_iff env req).mpr ⟨hq, hd, hmax⟩
  exact ⟨_, handle_rerank_ok parseTEI backend env req ep body rs hv hb hp hlen,
    by rw [rankResults_length, hlen], chain'_rankResults rs⟩

/-- C1 witness: two documents, two scored entries, success of length
two with non-increasing scores. -/
theorem c1_success_shape_witness :
    ∃ resp, handle_rerank (fun _ => some [⟨0, F64.val 1⟩, ⟨1, F64.val 2⟩])
        (fun _ => .ok "b") ⟨none, none, none⟩
        ⟨"q", ["d1", "d2"], none, none⟩ "e" = .ok resp ∧
      resp.results.length =
        (⟨"q", ["d1", "d2"], none, none⟩ : OpenWebUIRequest).documents.length ∧
      List.Chain' (fun x y => fLt x.relevance_score y.relevance_score = false)
        resp.results :=
  c1_success_shape (fun _ => some [⟨0, F64.val 1⟩, ⟨1, F64.val 2⟩])
    (fun _ => .ok "b") ⟨none, none, none⟩ ⟨"q", ["d1", "d2"], none, none⟩
    "e" "b" [⟨0, F64.val 1⟩, ⟨1, F64.val 2⟩]
    (by decide) (by decide) (by decide) rfl rfl (by decide)

/-- C4: the handler consults the backend only at the translated
request, whose texts are the caller's documents copied 1:1 in order;
and on the spec's concrete example (documents a-dog/a-cat, backend
scores 0.1 then 0.9 at indices 0 and 1) the response is index 1 with
score 0.9 followed by index 0 with score 0.1, for any valid query. -/
theorem c4_index_fidelity :
    (∀ (parseTEI : String → Option (List TEIRankResult))
        (backend backend' : TEIRequest → BackendOutcome) (env : Env)
        (req : OpenWebUIRequest) (ep : String),
      backend (tei_request_of req) = backend' (tei_request_of req) →
      handle_rerank parseTEI backend env req ep =
        handle_rerank parseTEI backend' env req ep) ∧
    (∀ q : String, (rustTrim q).isEmpty = false →
      handle_rerank
          (fun _ => some [⟨0, F64.val (1/10)⟩, ⟨1, F64.val (9/10)⟩])
          (fun _ => .ok "body") ⟨none, none, none⟩
          ⟨q, ["a dog", "a cat"], none, none⟩ "ep" =
        .ok { results := [⟨1, F64.val (9/10)⟩, ⟨0, F64.val (1/10)⟩] }) := by
  constructor
  · intro parseTEI backend backend' env req ep hbb
    unfold handle_rerank
    cases hv : validate env req
    · rw [hbb]
    · rfl
  · intro q hq
    have hd : (["a dog", "a cat"] : List String).isEmpty = false := by decide
    have hlen2 : (["a dog", "a cat"] : List String).length ≤
        maxBatchSize ⟨none, none, none⟩ := by decide
    have hv : validate ⟨none, none, none⟩
        ⟨q, ["a dog", "a cat"], none, none⟩ = none :=
      (validate_eq_none_iff _ _).mpr ⟨hq, hd, hlen2⟩
    have hcmp : rerankCmp (0, F64.val (1/10)) (1, F64.val (9/10)) =
        Ordering.gt := by
      simp only [rerankCmp, F64.pcmp, Option.getD]
      rw [if_neg (by norm_num), if_pos (by norm_num)]
    have hsort : sortByCmp rerankCmp
        [(0, F64.val (1/10)), (1, F64.val (9/10))] =
        [(1, F64.val (9/10)), (0, F64.val (1/10))] := by
      simp only [sortByCmp, insertSorted]
      rw [if_pos hcmp]
    have hrank : rankResults [⟨0, F64.val (1/10)⟩, ⟨1, F64.val (9/10)⟩] =
        [⟨1, F64.val (9/10)⟩, ⟨0, F64.val (1/10)⟩] := by
      unfold rankResults
      simp only [List.map]
      rw [hsort]
      simp only [List.map]
    have h := handle_rerank_ok
      (fun _ => some [⟨0, F64.val (1/10)⟩, ⟨1, F64.val (9/10)⟩])
      (fun _ => .ok "body") ⟨none, none, none⟩
      ⟨q, ["a dog", "a cat"], none, none⟩ "ep" "body"
      [⟨0, F64.val (1/10)⟩, ⟨1, F64.val (9/10)⟩] hv rfl rfl rfl
    rw [h, hrank]

/-- C4 witness: the concrete example with the query "q". -/
theorem c4_index_fidelity_witness :
    handle_rerank (fun _ => some [⟨0, F64.val (1/10)⟩, ⟨1, F64.val (9/10)⟩])
        (fun _ => .ok "body") ⟨none, none, none⟩
        ⟨"q", ["a dog", "a cat"], none, none⟩ "ep" =
      .ok { results := [⟨1, F64.val (9/10)⟩, ⟨0, F64.val (1/10)⟩] } :=
  c4_index_fidelity.2 "q" (by decide)

/-- C5: on a parsable reply of the right length the success body is
exactly the reranking of the reply: its (index, relevance_score)
pairs are a permutation of the reply's (index, score) pairs — nothing
filtered, deduplicated or truncated — and the top_n field never
changes the handler's output. -/
theorem c5_perm_no_truncation (parseTEI : String → Option (List TEIRankResult))
    (backend : TEIRequest → BackendOutcome) (env : Env)
    (req : OpenWebUIRequest) (ep body : String) (rs : List TEIRankResult)
    (hv : validate env req = none)
    (hb : backend (tei_request_of req) = .ok body)
    (hp : parseTEI body = some rs)
    (hlen : rs.length = req.documents.length) :
    handle_rerank parseTEI backend env req ep =
      .ok { results := rankResults rs } ∧
    List.Perm ((rankResults rs).map fun r => (r.index, r.relevance_score))
      (rs.map fun r => (r.index, r.score)) ∧
    (∀ t : Option Nat,
      handle_rerank parseTEI backend env { req with top_n := t } ep =
        handle_rerank parseTEI backend env req ep) :=
  ⟨handle_rerank_ok parseTEI backend env req ep body rs hv hb hp hlen,
    rankResults_pairs_perm rs, fun _ => rfl⟩

/-- C5 witness: a one-element reply is returned as a permutation of
itself. -/
theorem c5_perm_no_truncation_witness :
    List.Perm ((rankResults [⟨0, F64.val 1⟩]).map
        fun r => (r.index, r.relevance_score))
      (([⟨0, F64.val 1⟩] : List TEIRankResult).map
        fun r => (r.index, r.score)) :=
  (c5_perm_no_truncation (fun _ => some [⟨0, F64.val 1⟩]) (fun _ => .ok "b")
    ⟨none, none, none⟩ ⟨"q", ["d"], none, none⟩ "e" "b" [⟨0, F64.val 1⟩]
    (by decide) rfl rfl (by decide)).2.1

end RerankProxy
